import Mathlib

set_option maxRecDepth 10000
set_option maxHeartbeats 1000000

/-!
Shallow embedding of the `db-copy` table-copy tool (package `internal/db`,
file `db.go`, second iteration, plus the `Migrator`-based introspector
variant).  Database engines, drivers and the transaction backend are
external collaborators; their responses (catalog query results, DDL/insert
outcomes, commit outcome) are passed in explicitly, and the embedding
records the calls the code issues against them (DDL executed, insert
ranges, begin/commit/rollback) so that the control flow of the Go code is
captured faithfully.
-/

namespace DbCopy

/-- One character of Go `strings.ToUpper`, restricted to ASCII letters (every
type name the mapper handles is ASCII). -/
def goToUpperChar (c : Char) : Char :=
  if 'a' ≤ c ∧ c ≤ 'z' then Char.ofNat (c.toNat - 32) else c

/-- Go `strings.ToUpper` (ASCII model). -/
def goToUpper (s : String) : String := String.mk (s.toList.map goToUpperChar)

/-- The character list `pre` occurs at the start of `s`. -/
def startsWithL : List Char → List Char → Bool
  | _, [] => true
  | [], _ :: _ => false
  | a :: s, b :: p => a == b && startsWithL s p

/-- Go `strings.HasPrefix`. -/
def hasPrefixStr (s pre : String) : Bool := startsWithL s.toList pre.toList

/-- Go `strings.Contains`: `sub` occurs contiguously somewhere in `s`. -/
def goContains (s sub : String) : Bool :=
  (List.range (s.toList.length + 1)).any fun i => startsWithL (s.toList.drop i) sub.toList

/-- Dialect enum `DBType` from db.go: the two supported dialects. -/
inductive DBType where
  | sqlite
  | postgres
deriving DecidableEq, Repr

/-- The `Copier` struct of db.go (connection handles are held by the
environment, not the struct, in this embedding). -/
structure Copier where
  SourceDB : String
  DestDB : String
  TableName : String
  BatchSize : Int
  sourceDBType : DBType
  destDBType : DBType
deriving Repr

/-- Constructor `NewCopier` from db.go: stores the four arguments unchanged and
classifies each endpoint descriptor by the literal prefix `postgres://`. -/
def NewCopier (sourceDB destDB tableName : String) (batchSize : Int) : Copier :=
  { SourceDB := sourceDB
    DestDB := destDB
    TableName := tableName
    BatchSize := batchSize
    sourceDBType := if hasPrefixStr sourceDB "postgres://" then .postgres else .sqlite
    destDBType := if hasPrefixStr destDB "postgres://" then .postgres else .sqlite }

/-- Column descriptor `Column` from db.go.  The Go field `Type` is a reserved word in Lean and
is rendered `type_` (matching the Go scan variable of the same name). -/
structure Column where
  Name : String
  type_ : String
  IsNullable : Bool
  IsPrimary : Bool
deriving DecidableEq, Repr

/-- One row of SQLite `PRAGMA table_info(<table>)`, as scanned by
`getSourceSchema`. -/
structure PragmaRow where
  cid : Int
  name : String
  type_ : String
  notnull : Int
  dflt_value : Option String
  pk : Int
deriving DecidableEq, Repr

/-- One row of the Postgres `information_schema` query of `getSourceSchema`. -/
structure PGColumnRow where
  column_name : String
  data_type : String
  is_nullable : Bool
  is_primary : Bool
deriving DecidableEq, Repr

/-- The source database's response to the catalog query of each dialect
branch of `getSourceSchema` (an absent table yields `.ok []`: both catalog
queries return zero rows without error in that case). -/
structure SourceCatalog where
  sqlitePragma : Except String (List PragmaRow)
  pgColumns : Except String (List PGColumnRow)

/-- Type mapper `convertDataType` from db.go. -/
def convertDataType (sourceType : String) (fromDB toDB : DBType) : String :=
  let sourceType := goToUpper sourceType
  if fromDB == toDB then sourceType
  else
    match fromDB with
    | .sqlite =>
      if goContains sourceType "INTEGER" then "INTEGER"
      else if goContains sourceType "REAL" then "DOUBLE PRECISION"
      else if goContains sourceType "TEXT" then "TEXT"
      else if goContains sourceType "BLOB" then "BYTEA"
      else if goContains sourceType "BOOLEAN" then "BOOLEAN"
      else if goContains sourceType "DATETIME" then "TIMESTAMP"
      else if goContains sourceType "NUMERIC" then "NUMERIC"
      else "TEXT"
    | .postgres =>
      if sourceType == "BIGINT" || sourceType == "INTEGER" || sourceType == "SMALLINT" then
        "INTEGER"
      else if sourceType == "DOUBLE PRECISION" || sourceType == "REAL" ||
          sourceType == "NUMERIC" || sourceType == "DECIMAL" then
        "REAL"
      else if sourceType == "TEXT" || sourceType == "VARCHAR" || sourceType == "CHAR" ||
          sourceType == "CHARACTER VARYING" then
        "TEXT"
      else if sourceType == "BYTEA" then "BLOB"
      else if sourceType == "BOOLEAN" then "BOOLEAN"
      else if sourceType == "TIMESTAMP" || sourceType == "TIMESTAMP WITHOUT TIME ZONE" ||
          sourceType == "TIMESTAMP WITH TIME ZONE" then
        "DATETIME"
      else "TEXT"

/-- Introspector `getSourceSchema` from db.go: dispatch on the source dialect, map each
catalog row to a `Column` (the SQLite branch flags a column primary exactly
when its `pk` rank equals 1), wrapping a catalog-query failure. -/
def getSourceSchema (c : Copier) (cat : SourceCatalog) : Except String (List Column) :=
  match c.sourceDBType with
  | .sqlite =>
    match cat.sqlitePragma with
    | .error e => .error ("failed to get table schema: " ++ e)
    | .ok rows =>
      .ok (rows.map fun r =>
        { Name := r.name
          type_ := convertDataType r.type_ c.sourceDBType c.destDBType
          IsNullable := r.notnull == (0 : Int)
          IsPrimary := r.pk == (1 : Int) })
  | .postgres =>
    match cat.pgColumns with
    | .error e => .error ("failed to get table schema: " ++ e)
    | .ok rows =>
      .ok (rows.map fun r =>
        { Name := r.column_name
          type_ := convertDataType r.data_type c.sourceDBType c.destDBType
          IsNullable := r.is_nullable
          IsPrimary := r.is_primary })

/-- One entry of GORM `Migrator().ColumnTypes(table)` as consumed by the
`Migrator`-based `getSourceSchema` variant (unnamed part_002): column name,
database type name, and nullability when determinable. -/
structure ColumnTypeInfo where
  name : String
  databaseTypeName : String
  nullable : Option Bool
deriving DecidableEq, Repr

/-- The `Migrator`-based `getSourceSchema` variant (part_002), SQLite
branch: primary keys come from
`SELECT name, pk FROM pragma_table_info(?) WHERE pk > 0`, so every column
with a non-zero pk rank is flagged; unknown nullability defaults to
nullable. -/
def getSourceSchemaMigrator (c : Copier) (colTypes : List ColumnTypeInfo)
    (pragma : List PragmaRow) : List Column :=
  let primaryKeys := (pragma.filter fun r => decide (0 < r.pk)).map PragmaRow.name
  colTypes.map fun col =>
    { Name := col.name
      type_ := convertDataType col.databaseTypeName c.sourceDBType c.destDBType
      IsNullable := col.nullable.getD true
      IsPrimary := primaryKeys.contains col.name }

/-- The per-column DDL fragment built inside `ensureTableExists` (db.go):
`"<name> <type>"`, then `" PRIMARY KEY"` appended when flagged, then
`" NOT NULL"` appended when not nullable.  The Go switch on the destination
dialect has two identical branches; both are kept. -/
def columnDef (destDBType : DBType) (col : Column) : String :=
  match destDBType with
  | .postgres =>
    let d0 := col.Name ++ " " ++ col.type_
    let d1 := if col.IsPrimary then d0 ++ " PRIMARY KEY" else d0
    if !col.IsNullable then d1 ++ " NOT NULL" else d1
  | .sqlite =>
    let d0 := col.Name ++ " " ++ col.type_
    let d1 := if col.IsPrimary then d0 ++ " PRIMARY KEY" else d0
    if !col.IsNullable then d1 ++ " NOT NULL" else d1

/-- The `columnDefs` accumulation loop of `ensureTableExists` (append one
fragment per column, in order). -/
def buildColumnDefs (destDBType : DBType) (cols : List Column) : List String :=
  cols.foldl (fun acc col => acc ++ [columnDef destDBType col]) []

/-- The `createTableSQL` format string of `ensureTableExists`:
`fmt.Sprintf("CREATE TABLE %s (\n  %s\n);", table, strings.Join(defs, ",\n  "))`. -/
def buildCreateTableSQL (tableName : String) (columnDefs : List String) : String :=
  "CREATE TABLE " ++ tableName ++ " (\n  " ++ String.intercalate ",\n  " columnDefs ++ "\n);"

/-- The destination endpoint as `ensureTableExists` sees it: whether
`Migrator().HasTable` reports the table, and the driver's response to a DDL
statement (`none` = success). -/
structure Dest where
  hasTable : Bool
  execDDL : String → Option String

/-- What a call to `ensureTableExists` did: the DDL statements it executed
against the destination, and its return value. -/
structure EnsureResult where
  executed : List String
  result : Except String Unit

/-- Function `ensureTableExists` from db.go: skip everything when the destination
reports the table present; otherwise introspect the source, synthesize
`CREATE TABLE`, and execute it.  Also returns the updated destination (a
successful `CREATE TABLE` makes the table exist). -/
def ensureTableExists (c : Copier) (dest : Dest) (cat : SourceCatalog) :
    EnsureResult × Dest :=
  if dest.hasTable then (⟨[], .ok ()⟩, dest)
  else
    match getSourceSchema c cat with
    | .error e => (⟨[], .error ("failed to get source table schema: " ++ e)⟩, dest)
    | .ok columns =>
      let sql := buildCreateTableSQL c.TableName (buildColumnDefs c.destDBType columns)
      match dest.execDDL sql with
      | some e => (⟨[sql], .error ("failed to create table: " ++ e)⟩, dest)
      | none => (⟨[sql], .ok ()⟩, { dest with hasTable := true })

/-- A fetched row: the Go code reads each row as a map from column name to
a dynamically typed value; values are modelled by their string renderings —
no claim depends on them. -/
abbrev Row := List (String × String)

/-- The batching loop of `Copy` (`for i := 0; i < total; i += b`) as a list
of half-open record ranges `(i, min (i+b) total)`, one per iteration, with
explicit fuel.  With fuel `total` this reproduces the Go loop exactly
whenever `b ≥ 1` (the loop advances by `b` each iteration); the degenerate
`b ≤ 0` loops are analyzed separately via `loopIdx`/`chunkEndAt`. -/
def chunksFuel (total b : Nat) : Nat → Nat → List (Nat × Nat)
  | 0, _ => []
  | fuel + 1, i =>
    if i < total then (i, min (i + b) total) :: chunksFuel total b fuel (i + b)
    else []

/-- The record ranges of the insert calls `Copy` issues for `total` fetched
rows and batch size `b`. -/
def chunks (total b : Nat) : List (Nat × Nat) := chunksFuel total b total 0

/-- Ceiling division `⌈n / b⌉` as the Go-visible batch count. -/
def cdiv (n b : Nat) : Nat := (n + b - 1) / b

/-- The body of the batching loop: issue one `tx.Create` per chunk, printing
cumulative progress (`end`) after each success, stopping at the first
failure with the wrapped driver error.  Returns the ranges of the insert
calls issued (the failing one included), the progress values printed, and
the loop outcome. -/
def runBatches (insertOutcome : Nat → Option String) :
    List (Nat × Nat) → Nat → List (Nat × Nat) × List Nat × Except String Unit
  | [], _ => ([], [], .ok ())
  | ch :: rest, k =>
    match insertOutcome k with
    | some e => ([ch], [], .error ("failed to insert batch into destination table: " ++ e))
    | none =>
      let r := runBatches insertOutcome rest (k + 1)
      (ch :: r.1, ch.2 :: r.2.1, r.2.2)

/-- The collaborating endpoints of one `Copy` invocation: the destination,
the source catalog query responses, the source `Find` result, the outcome of
the k-th batch insert, and the commit outcome. -/
structure CopyEnv where
  dest : Dest
  catalog : SourceCatalog
  fetchResult : Except String (List Row)
  insertOutcome : Nat → Option String
  commitOutcome : Option String

/-- Trace and return value of one `Copy` invocation. -/
structure CopyResult where
  ensureExecuted : List String
  txBegun : Bool
  inserts : List (Nat × Nat)
  progress : List Nat
  rolledBack : Bool
  committed : Bool
  result : Except String Nat

/-- Engine `Copy` from db.go: ensure the destination table, fetch every source row,
begin a destination transaction, insert in batches of `BatchSize`, roll the
whole transaction back on the first failed insert, commit after all chunks
succeed.  On success the row count is reported. -/
def Copy (c : Copier) (env : CopyEnv) : CopyResult :=
  let ens := (ensureTableExists c env.dest env.catalog).1
  match ens.result with
  | .error e =>
    { ensureExecuted := ens.executed, txBegun := false, inserts := [], progress := []
      rolledBack := false, committed := false, result := .error e }
  | .ok _ =>
    match env.fetchResult with
    | .error e =>
      { ensureExecuted := ens.executed, txBegun := false, inserts := [], progress := []
        rolledBack := false, committed := false
        result := .error ("failed to read from source table: " ++ e) }
    | .ok records =>
      let totalRecords := records.length
      let bs := runBatches env.insertOutcome (chunks totalRecords c.BatchSize.toNat) 0
      match bs.2.2 with
      | .error e =>
        { ensureExecuted := ens.executed, txBegun := true, inserts := bs.1
          progress := bs.2.1, rolledBack := true, committed := false, result := .error e }
      | .ok _ =>
        match env.commitOutcome with
        | some e =>
          { ensureExecuted := ens.executed, txBegun := true, inserts := bs.1
            progress := bs.2.1, rolledBack := false, committed := false
            result := .error ("failed to commit transaction: " ++ e) }
        | none =>
          { ensureExecuted := ens.executed, txBegun := true, inserts := bs.1
            progress := bs.2.1, rolledBack := false, committed := true
            result := .ok totalRecords }

/-- The insert ranges that become visible in the destination: a
transaction's writes take effect only if it commits. -/
def committedInserts (r : CopyResult) : List (Nat × Nat) :=
  if r.committed then r.inserts else []

/-- The loop index of `for i := 0; i < total; i += b` after `k` increments
(Go `int` arithmetic). -/
def loopIdx (b : Int) : Nat → Int
  | 0 => 0
  | k + 1 => loopIdx b k + b

/-- The loop guard `i < totalRecords`. -/
def loopGuard (total : Nat) (i : Int) : Bool := decide (i < (total : Int))

/-- The chunk upper bound computed in the loop body:
`end := i + b; if end > total { end = total }`. -/
def chunkEndAt (total : Nat) (b i : Int) : Int :=
  if (total : Int) < i + b then (total : Int) else i + b

/-! ### Helper lemmas -/

theorem str_append_empty (s : String) : s ++ "" = s := by
  cases s with
  | mk data => show String.mk (data ++ []) = String.mk data; rw [List.append_nil]

theorem foldl_push_eq_map {α β : Type} (f : α → β) (l : List α) :
    ∀ acc : List β, l.foldl (fun a x => a ++ [f x]) acc = acc ++ l.map f := by
  induction l with
  | nil => intro acc; simp
  | cons x xs ih => intro acc; simp [List.foldl, ih]

theorem cdiv_zero (b : Nat) : cdiv 0 b = 0 := by
  rcases Nat.eq_zero_or_pos b with hb | hb
  · subst hb; rfl
  · simp [cdiv]; exact Nat.div_eq_of_lt (by omega)

theorem cdiv_succ {r b : Nat} (hb : 1 ≤ b) (hr : 0 < r) :
    cdiv r b = cdiv (r - b) b + 1 := by
  have key : cdiv r b = (r - 1) / b + 1 := by
    have h1 : r + b - 1 = (r - 1) + b := by omega
    rw [cdiv, h1, Nat.add_div_right _ (by omega)]
  rcases le_or_lt r b with hrb | hrb
  · have h2 : r - b = 0 := by omega
    rw [key, h2, cdiv_zero, Nat.div_eq_of_lt (by omega)]
  · have h3 : cdiv (r - b) b = (r - b - 1) / b + 1 := by
      have h1 : r - b + b - 1 = (r - b - 1) + b := by omega
      rw [cdiv, h1, Nat.add_div_right _ (by omega)]
    have h4 : r - 1 = (r - b - 1) + b := by omega
    rw [key, h3, h4, Nat.add_div_right _ (by omega)]

theorem chunksFuel_spec (total b : Nat) (hb : 1 ≤ b) :
    ∀ fuel k : Nat, total ≤ k * b + fuel * b →
      chunksFuel total b fuel (k * b) =
        (List.range (cdiv (total - k * b) b)).map
          (fun j => ((k + j) * b, min ((k + j + 1) * b) total)) := by
  intro fuel
  induction fuel with
  | zero =>
    intro k hk
    have h0 : total - k * b = 0 := by omega
    simp [chunksFuel, h0, cdiv_zero]
  | succ fuel ih =>
    intro k hk
    by_cases h : k * b < total
    · have hkb : k * b + b = (k + 1) * b := by ring
      have hk' : total ≤ (k + 1) * b + fuel * b := by
        have e1 : (k + 1) * b + fuel * b = k * b + (fuel + 1) * b := by ring
        omega
      have hrec := ih (k + 1) hk'
      have hcd : cdiv (total - k * b) b = cdiv (total - (k + 1) * b) b + 1 := by
        have e2 : total - k * b - b = total - (k + 1) * b := by
          have : (k + 1) * b = k * b + b := by ring
          omega
        rw [← e2]
        exact cdiv_succ hb (by omega)
      rw [show chunksFuel total b (fuel + 1) (k * b) =
            (k * b, min (k * b + b) total) :: chunksFuel total b fuel (k * b + b) by
            simp [chunksFuel, h]]
      rw [hkb, hrec, hcd, List.range_succ_eq_map, List.map_cons, List.map_map]
      congr 1
      apply List.map_congr_left
      intro j _
      show ((k + 1 + j) * b, (k + 1 + j + 1) * b ⊓ total)
          = ((k + (j + 1)) * b, (k + (j + 1) + 1) * b ⊓ total)
      rw [show k + (j + 1) = k + 1 + j by omega]
    · have h0 : total - k * b = 0 := by omega
      simp [chunksFuel, h, h0, cdiv_zero]

theorem chunks_eq_range_map (total b : Nat) (hb : 1 ≤ b) :
    chunks total b =
      (List.range (cdiv total b)).map (fun k => (k * b, min ((k + 1) * b) total)) := by
  have hle : total ≤ 0 * b + total * b := by
    have : total * 1 ≤ total * b := Nat.mul_le_mul_left total hb
    omega
  have := chunksFuel_spec total b hb total 0 hle
  simpa [chunks] using this

theorem runBatches_all_ok (io : Nat → Option String) (h : ∀ j, io j = none) :
    ∀ (l : List (Nat × Nat)) (k : Nat),
      runBatches io l k = (l, l.map Prod.snd, .ok ()) := by
  intro l
  induction l with
  | nil => intro k; rfl
  | cons ch rest ih => intro k; simp [runBatches, h k, ih (k + 1)]

theorem runBatches_fails (io : Nat → Option String) :
    ∀ (l : List (Nat × Nat)) (k m : Nat) (e : String), m < l.length →
      io (k + m) = some e → (∀ j, j < m → io (k + j) = none) →
      runBatches io l k =
        (l.take (m + 1), (l.take m).map Prod.snd,
          .error ("failed to insert batch into destination table: " ++ e)) := by
  intro l
  induction l with
  | nil => intro k m e hm; simp at hm
  | cons ch rest ih =>
    intro k m e hm hfail hok
    cases m with
    | zero =>
      have h0 : io k = some e := by simpa using hfail
      simp [runBatches, h0]
    | succ m' =>
      have h0 : io k = none := by simpa using hok 0 (by omega)
      have hfail' : io (k + 1 + m') = some e := by
        have e1 : k + 1 + m' = k + (m' + 1) := by omega
        rw [e1]; exact hfail
      have hok' : ∀ j, j < m' → io (k + 1 + j) = none := by
        intro j hj
        have e1 : k + 1 + j = k + (j + 1) := by omega
        rw [e1]; exact hok (j + 1) (by omega)
      have := ih (k + 1) m' e (by simpa using hm) hfail' hok'
      simp [runBatches, h0, this, List.take_succ_cons]

theorem loopIdx_eq (b : Int) (k : Nat) : loopIdx b k = (k : Int) * b := by
  induction k with
  | zero => simp [loopIdx]
  | succ k ih => simp [loopIdx, ih]; ring

/-! ### Concrete fixtures -/

/-- A SQLite-to-Postgres copier with batch size 2. -/
def fixCopierB2 : Copier := NewCopier "source.db" "postgres://localhost/dest" "users" 2

/-- A SQLite-to-Postgres copier with batch size 1000. -/
def fixCopier : Copier := NewCopier "source.db" "postgres://localhost/dest" "users" 1000

/-- Rows of `PRAGMA table_info` for a table whose primary key is composite:
column `a` has pk rank 1, column `b` pk rank 2. -/
def compositePKPragma : List PragmaRow :=
  [{ cid := 0, name := "a", type_ := "INTEGER", notnull := 1, dflt_value := none, pk := 1 },
   { cid := 1, name := "b", type_ := "INTEGER", notnull := 1, dflt_value := none, pk := 2 }]

/-- Entries of `Migrator().ColumnTypes` for the same composite-key table. -/
def compositePKColTypes : List ColumnTypeInfo :=
  [{ name := "a", databaseTypeName := "INTEGER", nullable := some false },
   { name := "b", databaseTypeName := "INTEGER", nullable := some false }]

/-- An empty catalog response: both dialects' catalog queries return zero
rows (what an absent source table produces) without error. -/
def emptyCatalog : SourceCatalog := { sqlitePragma := .ok [], pgColumns := .ok [] }

/-- Five fetched rows. -/
def fiveRows : List Row := List.replicate 5 [("id", "1")]

/-- An environment whose destination already has the table, whose source
holds `fiveRows`, and whose second batch insert (chunk index 1) is rejected
by the driver. -/
def fixEnvFail : CopyEnv :=
  { dest := { hasTable := true, execDDL := fun _ => none }
    catalog := emptyCatalog
    fetchResult := .ok fiveRows
    insertOutcome := fun k => if k == 1 then some "duplicate key value" else none
    commitOutcome := none }

/-- An environment whose destination already has the table, whose source
holds `fiveRows`, and where every insert and the commit succeed. -/
def fixEnvOk : CopyEnv :=
  { dest := { hasTable := true, execDDL := fun _ => none }
    catalog := emptyCatalog
    fetchResult := .ok fiveRows
    insertOutcome := fun _ => none
    commitOutcome := none }

/-- An environment whose destination already has the table and whose source
table is empty. -/
def fixEnvEmpty : CopyEnv :=
  { dest := { hasTable := true, execDDL := fun _ => none }
    catalog := emptyCatalog
    fetchResult := .ok []
    insertOutcome := fun _ => none
    commitOutcome := none }

/-- A destination that lacks the table and rejects every DDL statement with
a syntax error (what executing a CREATE TABLE with an empty column list
produces on a real backend). -/
def fixDestNoTable : Dest :=
  { hasTable := false, execDDL := fun _ => some "syntax error at or near \")\"" }

/-- A destination that reports the table present. -/
def fixDestHasTable : Dest := { hasTable := true, execDDL := fun _ => none }

/-! ### Claims -/

/-- C1: the claim says every column with non-zero catalog pk rank is flagged
`isPrimaryKey = true`, composite keys included.  Evaluating the two
introspectors of the repository on a composite-key table (ranks 1 and 2):
`getSourceSchema` of db.go flags only the rank-1 column (`pk == 1`), leaving
the rank-2 member unflagged, contradicting the claim; the `Migrator`-based
variant (part_002, `WHERE pk > 0`) flags both, as the claim and the spec
require. -/
theorem getSourceSchema_composite_pk_rank2_unflagged :
    getSourceSchema fixCopier
        { sqlitePragma := .ok compositePKPragma, pgColumns := .ok [] } =
      .ok [{ Name := "a", type_ := "INTEGER", IsNullable := false, IsPrimary := true },
           { Name := "b", type_ := "INTEGER", IsNullable := false, IsPrimary := false }] ∧
    (getSourceSchemaMigrator fixCopier compositePKColTypes compositePKPragma).map
        Column.IsPrimary = [true, true] := by
  exact ⟨rfl, rfl⟩

/-- C2 counterexample: with five rows, batch size 2 and the driver rejecting
the second chunk (records [2,4)), `Copy` returns the fixed wrapped message
`failed to insert batch into destination table: <driver error>`, which
contains neither bound of the failing chunk's record range (no digit at
all), so the returned error does not name the failing chunk's record
range. -/
theorem copy_insert_error_message_omits_range :
    (Copy fixCopierB2 fixEnvFail).result =
      .error "failed to insert batch into destination table: duplicate key value" ∧
    (Copy fixCopierB2 fixEnvFail).inserts.getLast? = some (2, 4) ∧
    goContains "failed to insert batch into destination table: duplicate key value"
      "2" = false ∧
    goContains "failed to insert batch into destination table: duplicate key value"
      "4" = false := by
  exact ⟨rfl, rfl, by decide, by decide⟩

/-- C2 (amended): if inserting any chunk fails, the whole destination
transaction is rolled back — nothing is committed, no insert becomes
visible, all chunks inserted earlier in the job are undone — and the
returned error is the driver error wrapped in the fixed message
`failed to insert batch into destination table: `, which does not carry the
failing chunk's record range. -/
theorem copy_insert_failure_rolls_back (c : Copier) (env : CopyEnv) (records : List Row)
    (k : Nat) (e : String)
    (hens : (ensureTableExists c env.dest env.catalog).1.result = .ok ())
    (hfetch : env.fetchResult = .ok records)
    (hk : k < (chunks records.length c.BatchSize.toNat).length)
    (hfail : env.insertOutcome k = some e)
    (hok : ∀ j, j < k → env.insertOutcome j = none) :
    (Copy c env).result = .error ("failed to insert batch into destination table: " ++ e) ∧
    (Copy c env).rolledBack = true ∧
    (Copy c env).committed = false ∧
    committedInserts (Copy c env) = [] ∧
    (Copy c env).inserts = (chunks records.length c.BatchSize.toNat).take (k + 1) := by
  have hrb := runBatches_fails env.insertOutcome
    (chunks records.length c.BatchSize.toNat) 0 k e hk
    (by simpa using hfail) (fun j hj => by simpa using hok j hj)
  simp [Copy, hens, hfetch, hrb, committedInserts]

/-- Witness for `copy_insert_failure_rolls_back` at `fixCopierB2`,
`fixEnvFail`, chunk index 1. -/
theorem copy_insert_failure_rolls_back_witness :
    ((ensureTableExists fixCopierB2 fixEnvFail.dest fixEnvFail.catalog).1.result = .ok () ∧
     fixEnvFail.fetchResult = .ok fiveRows ∧
     1 < (chunks fiveRows.length fixCopierB2.BatchSize.toNat).length ∧
     fixEnvFail.insertOutcome 1 = some "duplicate key value" ∧
     (∀ j, j < 1 → fixEnvFail.insertOutcome j = none)) ∧
    ((Copy fixCopierB2 fixEnvFail).result =
        .error ("failed to insert batch into destination table: " ++ "duplicate key value") ∧
     (Copy fixCopierB2 fixEnvFail).rolledBack = true ∧
     (Copy fixCopierB2 fixEnvFail).committed = false ∧
     committedInserts (Copy fixCopierB2 fixEnvFail) = [] ∧
     (Copy fixCopierB2 fixEnvFail).inserts =
       (chunks fiveRows.length fixCopierB2.BatchSize.toNat).take 2) :=
  ⟨⟨rfl, rfl, by decide, rfl, by decide⟩,
   copy_insert_failure_rolls_back fixCopierB2 fixEnvFail fiveRows 1 "duplicate key value"
     rfl rfl (by decide) rfl (by decide)⟩

/-- C3 counterexample: a SQLite source table absent from the catalog makes
`PRAGMA table_info` return zero rows without error, so introspection
succeeds with an empty column list and `ensureTableExists` goes on to
execute `CREATE TABLE missing (<no columns>);` against the destination —
the DDL path IS attempted — and the job fails with the create-table error,
not an introspection error. -/
theorem ensure_missing_table_attempts_ddl :
    (ensureTableExists (NewCopier "source.db" "postgres://localhost/dest" "missing" 1000)
        fixDestNoTable emptyCatalog).1.executed =
      ["CREATE TABLE missing (\n  \n);"] ∧
    (ensureTableExists (NewCopier "source.db" "postgres://localhost/dest" "missing" 1000)
        fixDestNoTable emptyCatalog).1.result =
      .error "failed to create table: syntax error at or near \")\"" := by
  exact ⟨rfl, rfl⟩

/-- C3 (amended): when the source catalog query for `tableName` returns zero
rows (the observable of an absent table — neither dialect's catalog query
errors on a missing table) and the destination lacks the table,
introspection itself succeeds with an empty column list, and
`ensureTableExists` executes the empty-column `CREATE TABLE` DDL against the
destination; the outcome is the backend's response to that DDL (wrapped as
`failed to create table: ` on rejection), never an introspection failure. -/
theorem ensure_missing_source_table_behavior (c : Copier) (dest : Dest) (cat : SourceCatalog)
    (hd : dest.hasTable = false) (hcat : getSourceSchema c cat = .ok []) :
    (ensureTableExists c dest cat).1.executed = [buildCreateTableSQL c.TableName []] ∧
    (ensureTableExists c dest cat).1.result =
      (match dest.execDDL (buildCreateTableSQL c.TableName []) with
       | some e => .error ("failed to create table: " ++ e)
       | none => .ok ()) := by
  have hdefs : buildColumnDefs c.destDBType [] = [] := rfl
  cases h : dest.execDDL (buildCreateTableSQL c.TableName []) <;>
    simp [ensureTableExists, hd, hcat, hdefs, h]

/-- Witness for `ensure_missing_source_table_behavior` at a concrete
SQLite-source job against a destination without the table. -/
theorem ensure_missing_source_table_behavior_witness :
    (fixDestNoTable.hasTable = false ∧
     getSourceSchema fixCopier emptyCatalog = .ok []) ∧
    ((ensureTableExists fixCopier fixDestNoTable emptyCatalog).1.executed =
      [buildCreateTableSQL fixCopier.TableName []] ∧
     (ensureTableExists fixCopier fixDestNoTable emptyCatalog).1.result =
      (match fixDestNoTable.execDDL (buildCreateTableSQL fixCopier.TableName []) with
       | some e => .error ("failed to create table: " ++ e)
       | none => .ok ())) :=
  ⟨⟨rfl, rfl⟩, ensure_missing_source_table_behavior fixCopier fixDestNoTable emptyCatalog rfl rfl⟩

/-- C4: with batch size `B ≥ 1` and `N` fetched rows, `Copy` issues exactly
`⌈N/B⌉` insert calls; the k-th (0-indexed) call carries the contiguous
record range `[k*B, min((k+1)*B, N))`; every chunk but possibly the last has
size exactly `B`; and the cumulative progress reported after the k-th
successful call is `min((k+1)*B, N)`. -/
theorem copy_batch_partitioning (c : Copier) (env : CopyEnv) (records : List Row)
    (hb : 1 ≤ c.BatchSize)
    (hens : (ensureTableExists c env.dest env.catalog).1.result = .ok ())
    (hfetch : env.fetchResult = .ok records)
    (hins : ∀ j, env.insertOutcome j = none) :
    (Copy c env).inserts =
      (List.range (cdiv records.length c.BatchSize.toNat)).map
        (fun k => (k * c.BatchSize.toNat, min ((k + 1) * c.BatchSize.toNat) records.length)) ∧
    (Copy c env).inserts.length = cdiv records.length c.BatchSize.toNat ∧
    (∀ k, k + 1 < cdiv records.length c.BatchSize.toNat →
      min ((k + 1) * c.BatchSize.toNat) records.length - k * c.BatchSize.toNat =
        c.BatchSize.toNat) ∧
    (Copy c env).progress =
      (List.range (cdiv records.length c.BatchSize.toNat)).map
        (fun k => min ((k + 1) * c.BatchSize.toNat) records.length) := by
  have hb' : 1 ≤ c.BatchSize.toNat := by omega
  have hrb := runBatches_all_ok env.insertOutcome hins
    (chunks records.length c.BatchSize.toNat) 0
  have hc := chunks_eq_range_map records.length c.BatchSize.toNat hb'
  have hstate : (Copy c env).inserts = chunks records.length c.BatchSize.toNat ∧
      (Copy c env).progress = (chunks records.length c.BatchSize.toNat).map Prod.snd := by
    cases hco : env.commitOutcome <;> simp [Copy, hens, hfetch, hrb, hco]
  refine ⟨?_, ?_, ?_, ?_⟩
  · rw [hstate.1, hc]
  · rw [hstate.1, hc]; simp
  · intro k hk
    have hd : k + 2 ≤ (records.length + c.BatchSize.toNat - 1) / c.BatchSize.toNat := hk
    have hmul : (k + 2) * c.BatchSize.toNat ≤ records.length + c.BatchSize.toNat - 1 :=
      (Nat.le_div_iff_mul_le (by omega)).1 hd
    have e1 : (k + 2) * c.BatchSize.toNat = (k + 1) * c.BatchSize.toNat + c.BatchSize.toNat := by
      ring
    have hlt : (k + 1) * c.BatchSize.toNat < records.length := by omega
    rw [Nat.min_eq_left (Nat.le_of_lt hlt)]
    have e2 : (k + 1) * c.BatchSize.toNat = k * c.BatchSize.toNat + c.BatchSize.toNat := by ring
    omega
  · rw [hstate.2, hc, List.map_map]
    apply List.map_congr_left
    intro a _
    rfl

/-- Witness for `copy_batch_partitioning`: 5 rows, batch size 2 — three
insert calls (0,2), (2,4), (4,5) with progress 2, 4, 5. -/
theorem copy_batch_partitioning_witness :
    ((1 : Int) ≤ fixCopierB2.BatchSize ∧
     (ensureTableExists fixCopierB2 fixEnvOk.dest fixEnvOk.catalog).1.result = .ok () ∧
     fixEnvOk.fetchResult = .ok fiveRows ∧
     (∀ j, fixEnvOk.insertOutcome j = none)) ∧
    ((Copy fixCopierB2 fixEnvOk).inserts =
      (List.range (cdiv fiveRows.length fixCopierB2.BatchSize.toNat)).map
        (fun k => (k * fixCopierB2.BatchSize.toNat,
          min ((k + 1) * fixCopierB2.BatchSize.toNat) fiveRows.length)) ∧
     (Copy fixCopierB2 fixEnvOk).inserts.length =
       cdiv fiveRows.length fixCopierB2.BatchSize.toNat ∧
     (∀ k, k + 1 < cdiv fiveRows.length fixCopierB2.BatchSize.toNat →
       min ((k + 1) * fixCopierB2.BatchSize.toNat) fiveRows.length -
         k * fixCopierB2.BatchSize.toNat = fixCopierB2.BatchSize.toNat) ∧
     (Copy fixCopierB2 fixEnvOk).progress =
       (List.range (cdiv fiveRows.length fixCopierB2.BatchSize.toNat)).map
         (fun k => min ((k + 1) * fixCopierB2.BatchSize.toNat) fiveRows.length)) :=
  ⟨⟨by decide, rfl, rfl, fun _ => rfl⟩,
   copy_batch_partitioning fixCopierB2 fixEnvOk fiveRows (by decide) rfl rfl (fun _ => rfl)⟩

/-- The Postgres→SQLite exact-match table of `convertDataType`: every native
type string it matches. -/
def pgTypeTable : List String :=
  ["BIGINT", "INTEGER", "SMALLINT", "DOUBLE PRECISION", "REAL", "NUMERIC", "DECIMAL",
   "TEXT", "VARCHAR", "CHAR", "CHARACTER VARYING", "BYTEA", "BOOLEAN", "TIMESTAMP",
   "TIMESTAMP WITHOUT TIME ZONE", "TIMESTAMP WITH TIME ZONE"]

/-- C5: for `from ≠ to`, `convertDataType` returns exactly the documented
target for every table entry (SQLite→Postgres by case-insensitive substring
match — the input is upper-cased and tested with `Contains`; Postgres→SQLite
by exact match on the upper-cased input), and any input matching no table
entry maps to `TEXT` (hypotheses `hs`/`ht` state non-matching in exactly the
code's regimes). -/
theorem convertDataType_mapping (s t : String)
    (hs : goContains (goToUpper s) "INTEGER" = false ∧
          goContains (goToUpper s) "REAL" = false ∧
          goContains (goToUpper s) "TEXT" = false ∧
          goContains (goToUpper s) "BLOB" = false ∧
          goContains (goToUpper s) "BOOLEAN" = false ∧
          goContains (goToUpper s) "DATETIME" = false ∧
          goContains (goToUpper s) "NUMERIC" = false)
    (ht : goToUpper t ∉ pgTypeTable) :
    (convertDataType "INTEGER" .sqlite .postgres = "INTEGER" ∧
     convertDataType "REAL" .sqlite .postgres = "DOUBLE PRECISION" ∧
     convertDataType "TEXT" .sqlite .postgres = "TEXT" ∧
     convertDataType "BLOB" .sqlite .postgres = "BYTEA" ∧
     convertDataType "BOOLEAN" .sqlite .postgres = "BOOLEAN" ∧
     convertDataType "DATETIME" .sqlite .postgres = "TIMESTAMP" ∧
     convertDataType "NUMERIC" .sqlite .postgres = "NUMERIC") ∧
    (convertDataType "BIGINT" .postgres .sqlite = "INTEGER" ∧
     convertDataType "INTEGER" .postgres .sqlite = "INTEGER" ∧
     convertDataType "SMALLINT" .postgres .sqlite = "INTEGER" ∧
     convertDataType "DOUBLE PRECISION" .postgres .sqlite = "REAL" ∧
     convertDataType "REAL" .postgres .sqlite = "REAL" ∧
     convertDataType "NUMERIC" .postgres .sqlite = "REAL" ∧
     convertDataType "DECIMAL" .postgres .sqlite = "REAL" ∧
     convertDataType "TEXT" .postgres .sqlite = "TEXT" ∧
     convertDataType "VARCHAR" .postgres .sqlite = "TEXT" ∧
     convertDataType "CHAR" .postgres .sqlite = "TEXT" ∧
     convertDataType "CHARACTER VARYING" .postgres .sqlite = "TEXT" ∧
     convertDataType "BYTEA" .postgres .sqlite = "BLOB" ∧
     convertDataType "BOOLEAN" .postgres .sqlite = "BOOLEAN" ∧
     convertDataType "TIMESTAMP" .postgres .sqlite = "DATETIME" ∧
     convertDataType "TIMESTAMP WITHOUT TIME ZONE" .postgres .sqlite = "DATETIME" ∧
     convertDataType "TIMESTAMP WITH TIME ZONE" .postgres .sqlite = "DATETIME") ∧
    convertDataType s .sqlite .postgres = "TEXT" ∧
    convertDataType t .postgres .sqlite = "TEXT" := by
  obtain ⟨h1, h2, h3, h4, h5, h6, h7⟩ := hs
  refine ⟨by decide, by decide, ?_, ?_⟩
  · simp [convertDataType, h1, h2, h3, h4, h5, h6, h7]
  · simp only [pgTypeTable, List.mem_cons, List.mem_singleton, not_or] at ht
    obtain ⟨t1, t2, t3, t4, t5, t6, t7, t8, t9, t10, t11, t12, t13, t14, t15, t16⟩ := ht
    simp [convertDataType, t1, t2, t3, t4, t5, t6, t7, t8, t9, t10, t11, t12, t13,
      t14, t15, t16]

/-- Witness for `convertDataType_mapping` at the unmapped input `UUID`. -/
theorem convertDataType_mapping_witness :
    ((goContains (goToUpper "UUID") "INTEGER" = false ∧
      goContains (goToUpper "UUID") "REAL" = false ∧
      goContains (goToUpper "UUID") "TEXT" = false ∧
      goContains (goToUpper "UUID") "BLOB" = false ∧
      goContains (goToUpper "UUID") "BOOLEAN" = false ∧
      goContains (goToUpper "UUID") "DATETIME" = false ∧
      goContains (goToUpper "UUID") "NUMERIC" = false) ∧
     goToUpper "UUID" ∉ pgTypeTable) ∧
    (convertDataType "UUID" .sqlite .postgres = "TEXT" ∧
     convertDataType "UUID" .postgres .sqlite = "TEXT") :=
  ⟨⟨by decide, by decide⟩,
   ⟨(convertDataType_mapping "UUID" "UUID" (by decide) (by decide)).2.2.1,
    (convertDataType_mapping "UUID" "UUID" (by decide) (by decide)).2.2.2⟩⟩

/-- C6: when the destination already reports the table present,
`ensureTableExists` executes no DDL and returns without error, and a second
call after the first succeeded behaves identically — it is idempotent on an
existing destination table. -/
theorem ensureTableExists_idempotent (c : Copier) (dest : Dest) (cat cat' : SourceCatalog)
    (h : dest.hasTable = true) :
    ensureTableExists c dest cat = (⟨[], .ok ()⟩, dest) ∧
    ensureTableExists c (ensureTableExists c dest cat).2 cat' = (⟨[], .ok ()⟩, dest) := by
  have h1 : ensureTableExists c dest cat = (⟨[], .ok ()⟩, dest) := by
    simp [ensureTableExists, h]
  refine ⟨h1, ?_⟩
  rw [h1]
  simp [ensureTableExists, h]

/-- Witness for `ensureTableExists_idempotent` at a concrete destination
that has the table. -/
theorem ensureTableExists_idempotent_witness :
    fixDestHasTable.hasTable = true ∧
    (ensureTableExists fixCopier fixDestHasTable emptyCatalog =
        (⟨[], .ok ()⟩, fixDestHasTable) ∧
     ensureTableExists fixCopier
        (ensureTableExists fixCopier fixDestHasTable emptyCatalog).2 emptyCatalog =
        (⟨[], .ok ()⟩, fixDestHasTable)) :=
  ⟨rfl, ensureTableExists_idempotent fixCopier fixDestHasTable emptyCatalog emptyCatalog rfl⟩

/-- C7: dialect classification in `NewCopier` is a pure total function of
the descriptor string: an endpoint is classified Postgres exactly when its
descriptor starts with the literal prefix `postgres://`, and SQLite for
every other string — no other validation is involved. -/
theorem newCopier_dialect_classification (s d tn : String) (b : Int) :
    ((NewCopier s d tn b).sourceDBType = DBType.postgres ↔
      hasPrefixStr s "postgres://" = true) ∧
    ((NewCopier s d tn b).sourceDBType = DBType.sqlite ↔
      hasPrefixStr s "postgres://" = false) ∧
    ((NewCopier s d tn b).destDBType = DBType.postgres ↔
      hasPrefixStr d "postgres://" = true) ∧
    ((NewCopier s d tn b).destDBType = DBType.sqlite ↔
      hasPrefixStr d "postgres://" = false) := by
  cases hs : hasPrefixStr s "postgres://" <;> cases hd : hasPrefixStr d "postgres://" <;>
    simp [NewCopier, hs, hd]

/-- C8: the synthesized DDL is exactly: per column, in order,
`"<name> <type>"` with `" PRIMARY KEY"` appended exactly when the column is
flagged primary and `" NOT NULL"` appended exactly when it is not nullable,
the fragments joined by commas (comma, newline, two-space indent) and
wrapped in `CREATE TABLE <name> ( ... );` — identically for both destination
dialects. -/
theorem createTable_ddl_shape (d : DBType) (tname : String) (cols : List Column) :
    buildCreateTableSQL tname (buildColumnDefs d cols) =
      "CREATE TABLE " ++ tname ++ " (\n  " ++
        String.intercalate ",\n  "
          (cols.map fun col =>
            col.Name ++ " " ++ col.type_ ++
              (if col.IsPrimary then " PRIMARY KEY" else "") ++
              (if col.IsNullable then "" else " NOT NULL")) ++
        "\n);" := by
  have hcol : ∀ col : Column, columnDef d col =
      col.Name ++ " " ++ col.type_ ++
        (if col.IsPrimary then " PRIMARY KEY" else "") ++
        (if col.IsNullable then "" else " NOT NULL") := by
    intro col
    cases d <;> cases hp : col.IsPrimary <;> cases hn : col.IsNullable <;>
      simp [columnDef, hp, hn, str_append_empty]
  have hdefs : buildColumnDefs d cols = cols.map (columnDef d) := by
    simpa using foldl_push_eq_map (columnDef d) cols []
  have hmap : cols.map (columnDef d) =
      cols.map (fun col =>
        col.Name ++ " " ++ col.type_ ++
          (if col.IsPrimary then " PRIMARY KEY" else "") ++
          (if col.IsNullable then "" else " NOT NULL")) :=
    List.map_congr_left (fun col _ => hcol col)
  simp only [buildCreateTableSQL, hdefs, hmap]

/-- C9: `NewCopier` stores `batchSize` unvalidated, and the batching loop of
`Copy` (`for i := 0; i < total; i += b`): terminates for every row count
when `b ≥ 1`; never terminates for `b = 0` with at least one row (the guard
holds after every iteration); and for negative `b` the first iteration's
chunk bounds are invalid — `end < start` (`records[i:end]` panics in Go). -/
theorem copy_batchSize_unvalidated (total : Nat) (h : 1 ≤ total) (s d tn : String) (bz : Int) :
    (NewCopier s d tn bz).BatchSize = bz ∧
    (∀ b : Int, 1 ≤ b → ∀ m : Nat, ∃ k : Nat, loopGuard m (loopIdx b k) = false) ∧
    (∀ k : Nat, loopGuard total (loopIdx 0 k) = true) ∧
    (∀ b : Int, b < 0 → chunkEndAt total b (loopIdx b 0) < loopIdx b 0) := by
  refine ⟨rfl, ?_, ?_, ?_⟩
  · intro b hb m
    refine ⟨m, ?_⟩
    rw [loopIdx_eq]
    simp only [loopGuard, decide_eq_false_iff_not, not_lt]
    have hm : (m : Int) ≤ (m : Int) * b := by
      calc (m : Int) = (m : Int) * 1 := by ring
        _ ≤ (m : Int) * b := by
            apply mul_le_mul_of_nonneg_left hb
            positivity
    exact hm
  · intro k
    rw [loopIdx_eq]
    simp only [loopGuard, mul_zero, decide_eq_true_eq]
    omega
  · intro b hb
    have h0 : loopIdx b 0 = 0 := rfl
    rw [h0]
    unfold chunkEndAt
    rw [if_neg (by omega : ¬ (total : Int) < 0 + b)]
    omega

/-- Witness for `copy_batchSize_unvalidated` at one fetched row. -/
theorem copy_batchSize_unvalidated_witness :
    1 ≤ 1 ∧
    ((NewCopier "s.db" "d.db" "t" 0).BatchSize = 0 ∧
     (∀ b : Int, 1 ≤ b → ∀ m : Nat, ∃ k : Nat, loopGuard m (loopIdx b k) = false) ∧
     (∀ k : Nat, loopGuard 1 (loopIdx 0 k) = true) ∧
     (∀ b : Int, b < 0 → chunkEndAt 1 b (loopIdx b 0) < loopIdx b 0)) :=
  ⟨by decide, copy_batchSize_unvalidated 1 (by decide) "s.db" "d.db" "t" 0⟩

/-- C10: with a zero-row source table (after `ensureTableExists` succeeds),
`Copy` issues no insert call, still begins and commits the destination
transaction, and returns success reporting 0 records copied. -/
theorem copy_empty_source (c : Copier) (env : CopyEnv)
    (hens : (ensureTableExists c env.dest env.catalog).1.result = .ok ())
    (hfetch : env.fetchResult = .ok ([] : List Row))
    (hcommit : env.commitOutcome = none) :
    (Copy c env).txBegun = true ∧
    (Copy c env).inserts = [] ∧
    (Copy c env).progress = [] ∧
    (Copy c env).rolledBack = false ∧
    (Copy c env).committed = true ∧
    (Copy c env).result = .ok 0 := by
  have hch : chunks 0 c.BatchSize.toNat = [] := rfl
  have hrb : runBatches env.insertOutcome [] 0 = ([], [], .ok ()) := rfl
  simp [Copy, hens, hfetch, hcommit, hch, hrb]

/-- Witness for `copy_empty_source` at a concrete empty-source environment. -/
theorem copy_empty_source_witness :
    ((ensureTableExists fixCopierB2 fixEnvEmpty.dest fixEnvEmpty.catalog).1.result = .ok () ∧
     fixEnvEmpty.fetchResult = .ok ([] : List Row) ∧
     fixEnvEmpty.commitOutcome = none) ∧
    ((Copy fixCopierB2 fixEnvEmpty).txBegun = true ∧
     (Copy fixCopierB2 fixEnvEmpty).inserts = [] ∧
     (Copy fixCopierB2 fixEnvEmpty).progress = [] ∧
     (Copy fixCopierB2 fixEnvEmpty).rolledBack = false ∧
     (Copy fixCopierB2 fixEnvEmpty).committed = true ∧
     (Copy fixCopierB2 fixEnvEmpty).result = .ok 0) :=
  ⟨⟨rfl, rfl, rfl⟩, copy_empty_source fixCopierB2 fixEnvEmpty rfl rfl rfl⟩

end DbCopy
